import Mathlib

/-!
Verification development for a FOLFOX chemotherapy cycle-count optimiser.

The embedding mirrors the Python sources: params.py (the parameter
dataclasses), model.py (FOLFOXModel: __init__, get_dosing_schedule,
simulate) and optimise_folfox.py (the candidate-cycle search loop in
main).  Real-valued quantities are embedded as rationals; the float
power `eff_auc ** hill_coef` is embedded with a natural-number Hill
exponent (a rational power of a rational is in general irrational, and
no claim depends on non-integral exponents).  `math.sqrt` for the BSA
is handled by passing the square root in as an argument characterised
by the predicate IsSqrt below.  Python's `int(x)` on the nonnegative
quotients arising here is the floor, embedded with Rat.floor.
-/

namespace Folfox

/-- Mirrors params.HematologyParams. -/
structure HematologyParams where
  anc_baseline : ℚ
  anc_crit : ℚ
  k_out : ℚ
  k_tox_5fu_dose : ℚ
  k_tox_ox_dose : ℚ
  severe_neutropenia_threshold : ℚ

/-- Mirrors params.NeuropathyParams. -/
structure NeuropathyParams where
  chronic_neuropathy_threshold_mg_m2 : ℚ

/-- Mirrors params.DosingParams (min_days_between_ox is a Python int). -/
structure DosingParams where
  max_daily_5fu_mg_m2 : ℚ
  max_single_ox_mg_m2 : ℚ
  min_days_between_ox : ℤ
  patient_weight_kg : ℚ
  patient_height_cm : ℚ

/-- Mirrors params.UtilityParams. -/
structure UtilityParams where
  baseline_utility : ℚ
  neutropenia_penalty : ℚ
  neuropathy_penalty : ℚ

/-- Mirrors params.OptimizationParams (horizon_days is a Python int). -/
structure OptimizationParams where
  horizon_days : ℤ
  step_size_days : ℚ

/-- Mirrors params.TumorParams; hill_coef is embedded as a natural
number (see the file comment). -/
structure TumorParams where
  initial_size : ℚ
  growth_rate : ℚ
  E_max : ℚ
  EC_50 : ℚ
  hill_coef : ℕ
  clearance_ox_L_h : ℚ
  clearance_5fu_L_h : ℚ
  alpha_ox : ℚ
  alpha_5fu : ℚ
  tumor_weight_in_utility : ℚ

/-- Mirrors params.EconomicsParams. -/
structure EconomicsParams where
  cost_5fu_mg : ℚ
  cost_ox_mg : ℚ
  cost_infusion_day : ℚ
  cost_pump_day : ℚ
  cost_utility_factor : ℚ

/-- Mirrors params.FOLFOXParams.  SolverParams and OutputParams are
omitted: the core model and optimiser never read them (they only feed
the solver placeholder and the I/O layer). -/
structure FOLFOXParams where
  hematology : HematologyParams
  neuropathy : NeuropathyParams
  dosing : DosingParams
  utility : UtilityParams
  optimization : OptimizationParams
  economics : EconomicsParams
  tumor : TumorParams

/-- The state of a constructed model.FOLFOXModel after __init__: the
parameter bundle plus the derived fields self.dt, self.horizon, self.T,
self.bsa_m2 and the pre-calculated absolute limits and thresholds. -/
structure FOLFOXModel where
  params : FOLFOXParams
  dt : ℚ
  horizon : ℤ
  T : ℕ
  bsa_m2 : ℚ
  max_daily_5fu_mg : ℚ
  max_single_ox_mg : ℚ
  chronic_neuro_thresh_mg : ℚ
  severe_neutropenia_thresh : ℚ

/-- The spec's name for the error raised on non-positive weight or
height (the Python code raises ValueError there). -/
inductive InvalidPatientError where
  | mk

/-- b is the (nonnegative real) square root of x, expressed without
leaving ℚ: the characterisation used for math.sqrt in __init__. -/
def IsSqrt (x b : ℚ) : Prop := 0 ≤ b ∧ b ^ 2 = x

/-- Mirrors FOLFOXModel.__init__ (model.py lines 13-32).  The square
root of (height*weight)/3600 is passed in as bsa; the validity check
and every derived field follow the source.  Python's
int(self.horizon / self.dt) truncates toward zero, which on the
nonnegative quotient of a valid bundle is the floor. -/
def FOLFOXModel.ofParams (p : FOLFOXParams) (bsa : ℚ) :
    Except InvalidPatientError FOLFOXModel :=
  if p.dosing.patient_weight_kg ≤ 0 ∨ p.dosing.patient_height_cm ≤ 0 then
    Except.error InvalidPatientError.mk
  else
    Except.ok
      { params := p
        dt := p.optimization.step_size_days
        horizon := p.optimization.horizon_days
        T := (((p.optimization.horizon_days : ℚ) /
                p.optimization.step_size_days).floor).toNat
        bsa_m2 := bsa
        max_daily_5fu_mg := p.dosing.max_daily_5fu_mg_m2 * bsa
        max_single_ox_mg := p.dosing.max_single_ox_mg_m2 * bsa
        chronic_neuro_thresh_mg :=
          p.neuropathy.chronic_neuropathy_threshold_mg_m2 * bsa
        severe_neutropenia_thresh :=
          p.hematology.severe_neutropenia_threshold }

/-- start_day_idx of a cycle: int(cycle * 14 / dt) in
get_dosing_schedule (model.py line 54). -/
def day1Idx (m : FOLFOXModel) (c : ℕ) : ℕ :=
  ((((c : ℚ) * 14) / m.dt).floor).toNat

/-- The loop body of FOLFOXModel.get_dosing_schedule (model.py lines
53-65), iterated for the first n cycles: array writes become function
updates.  Oxaliplatin is written at day1 only under the source's
condition cycle == 0 or min_days_between_ox <= cycle_len_days. -/
def schedLoop (m : FOLFOXModel) : ℕ → ((ℕ → ℚ) × (ℕ → ℚ))
  | 0 => (fun _ => 0, fun _ => 0)
  | c + 1 =>
    let prev := schedLoop m c
    let d5 := prev.1
    let dox := prev.2
    let day1 := day1Idx m c
    let day2 := day1 + 1
    let dox2 :=
      if day1 < m.T ∧ (c = 0 ∨ m.params.dosing.min_days_between_ox ≤ 14) then
        fun i => if i = day1 then m.max_single_ox_mg else dox i
      else dox
    let d5a :=
      if day1 < m.T then
        (fun i => if i = day1 then m.max_daily_5fu_mg else d5 i)
      else d5
    let d5b :=
      if day2 < m.T then
        (fun i => if i = day2 then m.max_daily_5fu_mg else d5a i)
      else d5a
    (d5b, dox2)

/-- FOLFOXModel.get_dosing_schedule (model.py lines 34-67): the
(dose_5fu, dose_ox) arrays as functions of the day index. -/
def FOLFOXModel.get_dosing_schedule (m : FOLFOXModel) (num_cycles : ℕ) :
    (ℕ → ℚ) × (ℕ → ℚ) :=
  schedLoop m num_cycles

/-- One row of the simulation loop's state: the t-indexed arrays of
FOLFOXModel.simulate at a fixed index, together with the step-indexed
outputs (eff_auc, kill_rate, daily_cost) of the step just taken. -/
structure SimState where
  anc : ℚ
  cum_ox : ℚ
  acute : ℕ
  chronic : ℕ
  eff_auc : ℚ
  kill_rate : ℚ
  tumor : ℚ
  daily_cost : ℚ
  total_cost : ℚ
  utility : ℚ

/-- The body of the simulation loop of FOLFOXModel.simulate (model.py
lines 106-189) at step t, updating the state from index t to t+1, in
the source's order (each let matches a source line; the print on line
158 is I/O and has no state effect). -/
def simStep (m : FOLFOXModel) (d5 dox : ℕ → ℚ) (t : ℕ) (s : SimState) :
    SimState :=
  let anc_production := m.params.hematology.k_out * m.params.hematology.anc_baseline
  let anc_loss := m.params.hematology.k_out * s.anc
  let toxicity_effect :=
    (m.params.hematology.k_tox_5fu_dose * d5 t +
      m.params.hematology.k_tox_ox_dose * dox t) * s.anc
  let d_anc_dt := anc_production - anc_loss - toxicity_effect
  let anc2 := max 0 (s.anc + d_anc_dt * m.dt)
  let cum_ox2 := s.cum_ox + dox t
  let acute2 : ℕ := if dox t > 0 then 1 else 0
  let chronic2 : ℕ :=
    if cum_ox2 ≥ m.chronic_neuro_thresh_mg then 1 else s.chronic
  let auc_ox := dox t / m.params.tumor.clearance_ox_L_h
  let auc_5fu := d5 t / m.params.tumor.clearance_5fu_L_h
  let eff2 :=
    if t > 0 then
      m.params.tumor.alpha_ox * auc_ox + m.params.tumor.alpha_5fu * auc_5fu +
        s.eff_auc * (7 / 10)
    else
      m.params.tumor.alpha_ox * auc_ox + m.params.tumor.alpha_5fu * auc_5fu
  let kill_rate2 :=
    if eff2 > 0 then
      m.params.tumor.E_max * eff2 ^ m.params.tumor.hill_coef /
        (eff2 ^ m.params.tumor.hill_coef +
          m.params.tumor.EC_50 ^ m.params.tumor.hill_coef)
    else 0
  let growth := m.params.tumor.growth_rate * s.tumor
  let kill := kill_rate2 * s.tumor
  let tumor2 := max 0 (s.tumor + (growth - kill) * m.dt)
  let cost_today0 := d5 t * m.params.economics.cost_5fu_mg +
    dox t * m.params.economics.cost_ox_mg
  let cost_today1 :=
    if d5 t > 0 ∨ dox t > 0 then cost_today0 + m.params.economics.cost_infusion_day
    else cost_today0
  let cost_today :=
    if d5 t > 0 then cost_today1 + m.params.economics.cost_pump_day
    else cost_today1
  let total_cost2 := s.total_cost + cost_today
  let u0 := m.params.utility.baseline_utility
  let u1 :=
    if anc2 < m.severe_neutropenia_thresh then
      u0 + m.params.utility.neutropenia_penalty
    else u0
  let u2 :=
    if acute2 = 1 ∨ chronic2 = 1 then u1 + m.params.utility.neuropathy_penalty
    else u1
  let u3 := u2 - cost_today * m.params.economics.cost_utility_factor
  let u4 := u3 - m.params.tumor.tumor_weight_in_utility *
    (tumor2 / m.params.tumor.initial_size)
  { anc := anc2
    cum_ox := cum_ox2
    acute := acute2
    chronic := chronic2
    eff_auc := eff2
    kill_rate := kill_rate2
    tumor := tumor2
    daily_cost := cost_today
    total_cost := total_cost2
    utility := u4 }

/-- The simulation state after t steps: initial conditions from
model.py lines 96-103, then t iterations of the loop body.  The
step-indexed fields (eff_auc, kill_rate, daily_cost) of the initial
state are the array zeros they are initialised with. -/
def simStates (m : FOLFOXModel) (d5 dox : ℕ → ℚ) : ℕ → SimState
  | 0 =>
    { anc := m.params.hematology.anc_baseline
      cum_ox := 0
      acute := 0
      chronic := 0
      eff_auc := 0
      kill_rate := 0
      tumor := m.params.tumor.initial_size
      daily_cost := 0
      total_cost := 0
      utility := m.params.utility.baseline_utility }
  | t + 1 => simStep m d5 dox t (simStates m d5 dox t)

/-- anc[t]. -/
def ancSeq (m : FOLFOXModel) (d5 dox : ℕ → ℚ) (t : ℕ) : ℚ :=
  (simStates m d5 dox t).anc

/-- cum_ox[t]. -/
def cumOxSeq (m : FOLFOXModel) (d5 dox : ℕ → ℚ) (t : ℕ) : ℚ :=
  (simStates m d5 dox t).cum_ox

/-- acute_neuropathy[t]. -/
def acuteSeq (m : FOLFOXModel) (d5 dox : ℕ → ℚ) (t : ℕ) : ℕ :=
  (simStates m d5 dox t).acute

/-- chronic_neuropathy[t]. -/
def chronicSeq (m : FOLFOXModel) (d5 dox : ℕ → ℚ) (t : ℕ) : ℕ :=
  (simStates m d5 dox t).chronic

/-- tumor_size[t]. -/
def tumorSeq (m : FOLFOXModel) (d5 dox : ℕ → ℚ) (t : ℕ) : ℚ :=
  (simStates m d5 dox t).tumor

/-- total_cost[t]. -/
def totalCostSeq (m : FOLFOXModel) (d5 dox : ℕ → ℚ) (t : ℕ) : ℚ :=
  (simStates m d5 dox t).total_cost

/-- utility[t]. -/
def utilitySeq (m : FOLFOXModel) (d5 dox : ℕ → ℚ) (t : ℕ) : ℚ :=
  (simStates m d5 dox t).utility

/-- eff_auc[t] (a step-indexed array: entry t is written by step t). -/
def effAucSeq (m : FOLFOXModel) (d5 dox : ℕ → ℚ) (t : ℕ) : ℚ :=
  (simStates m d5 dox (t + 1)).eff_auc

/-- kill_rate[t] (step-indexed). -/
def killRateSeq (m : FOLFOXModel) (d5 dox : ℕ → ℚ) (t : ℕ) : ℚ :=
  (simStates m d5 dox (t + 1)).kill_rate

/-- daily_cost[t] (step-indexed). -/
def dailyCostSeq (m : FOLFOXModel) (d5 dox : ℕ → ℚ) (t : ℕ) : ℚ :=
  (simStates m d5 dox (t + 1)).daily_cost

/-- The results dictionary of FOLFOXModel.simulate (model.py lines
192-207): a fixed set of named sequences.  Flag arrays carry Python
ints (ℕ here); the step-indexed arrays are padded with a trailing 0 to
length T+1 exactly as in the source. -/
structure SimResults where
  time : List ℚ
  dose_5fu : List ℚ
  dose_ox : List ℚ
  anc : List ℚ
  acute_neuropathy : List ℕ
  chronic_neuropathy : List ℕ
  cum_ox : List ℚ
  utility : List ℚ
  chronic_neuropathy_threshold_mg : List ℚ
  daily_cost : List ℚ
  total_cost : List ℚ
  tumor_size : List ℚ
  kill_rate : List ℚ
  effective_auc : List ℚ

/-- FOLFOXModel.simulate (model.py lines 69-208). -/
def FOLFOXModel.simulate (m : FOLFOXModel) (num_cycles : ℕ) : SimResults :=
  let sch := m.get_dosing_schedule num_cycles
  let d5 := sch.1
  let dox := sch.2
  { time := List.ofFn fun t : Fin (m.T + 1) => (t : ℚ) * m.dt
    dose_5fu := (List.ofFn fun t : Fin m.T => d5 t) ++ [0]
    dose_ox := (List.ofFn fun t : Fin m.T => dox t) ++ [0]
    anc := List.ofFn fun t : Fin (m.T + 1) => ancSeq m d5 dox t
    acute_neuropathy := List.ofFn fun t : Fin (m.T + 1) => acuteSeq m d5 dox t
    chronic_neuropathy := List.ofFn fun t : Fin (m.T + 1) => chronicSeq m d5 dox t
    cum_ox := List.ofFn fun t : Fin (m.T + 1) => cumOxSeq m d5 dox t
    utility := List.ofFn fun t : Fin (m.T + 1) => utilitySeq m d5 dox t
    chronic_neuropathy_threshold_mg :=
      List.replicate (m.T + 1) m.chronic_neuro_thresh_mg
    daily_cost := (List.ofFn fun t : Fin m.T => dailyCostSeq m d5 dox t) ++ [0]
    total_cost := List.ofFn fun t : Fin (m.T + 1) => totalCostSeq m d5 dox t
    tumor_size := List.ofFn fun t : Fin (m.T + 1) => tumorSeq m d5 dox t
    kill_rate := (List.ofFn fun t : Fin m.T => killRateSeq m d5 dox t) ++ [0]
    effective_auc := (List.ofFn fun t : Fin m.T => effAucSeq m d5 dox t) ++ [0] }

/-- FOLFOXModel.solve (model.py lines 211-213): a pass-through. -/
def FOLFOXModel.solve (m : FOLFOXModel) (num_cycles : ℕ) : SimResults :=
  m.simulate num_cycles

/-- The average-utility score of one candidate's results
(optimise_folfox.py line 151): np.mean(results['utility'][1:]) when the
utility array has more than one entry, else the baseline utility. -/
def meanUtility (p : FOLFOXParams) (res : SimResults) : ℚ :=
  if 1 < res.utility.length then
    (res.utility.drop 1).sum / ((res.utility.drop 1).length : ℚ)
  else p.utility.baseline_utility

/-- The spec's name for the optimiser's total-failure outcome
(optimise_folfox.py lines 166-168: best_results is None, return 1). -/
inductive NoFeasibleScheduleError where
  | mk

/-- Does a candidate's average utility beat the incumbent
(optimise_folfox.py line 154)?  best = none is the initial
best_avg_utility = -inf, which every finite average beats. -/
def improves (best : Option (ℕ × ℚ × SimResults)) (avg : ℚ) : Bool :=
  match best with
  | none => true
  | some b => decide (b.2.1 < avg)

/-- The candidate loop of main (optimise_folfox.py lines 142-164).  The
per-candidate call of model.solve, which Python wraps in try/except, is
abstracted as run : ℕ → Except Unit SimResults; a candidate whose run
raises is reported and skipped, the search continues. -/
def optimiseLoop (run : ℕ → Except Unit SimResults) (sc : SimResults → ℚ) :
    List ℕ → Option (ℕ × ℚ × SimResults) → Option (ℕ × ℚ × SimResults)
  | [], best => best
  | n :: rest, best =>
    optimiseLoop run sc rest
      (match run n with
       | Except.error _ => best
       | Except.ok res =>
         if improves best (sc res) then some (n, sc res, res) else best)

/-- The number of candidates main evaluates:
range(int(horizon_days // 14) + 1) (optimise_folfox.py lines 136,
142).  Python // is floor division (Int.fdiv); for a negative horizon
the range is empty, matching (fdiv + 1).toNat = 0. -/
def numCandidates (p : FOLFOXParams) : ℕ :=
  (Int.fdiv p.optimization.horizon_days 14 + 1).toNat

/-- The optimisation phase of main (optimise_folfox.py lines 134-168):
evaluate every candidate cycle count, keep the first strict
best-by-average-utility, and fail only when no candidate produced
results. -/
def findOptimalCycles (run : ℕ → Except Unit SimResults) (p : FOLFOXParams) :
    Except NoFeasibleScheduleError (ℕ × ℚ × SimResults) :=
  match optimiseLoop run (meanUtility p) (List.range (numCandidates p)) none with
  | none => Except.error NoFeasibleScheduleError.mk
  | some best => Except.ok best

/-- The per-candidate evaluation main actually performs when no
exception is raised: model.solve on the shared model. -/
def runCandidate (m : FOLFOXModel) : ℕ → Except Unit SimResults :=
  fun n => Except.ok (m.solve n)

/-- The score of candidate n for model m, as main computes it. -/
def score (m : FOLFOXModel) (n : ℕ) : ℚ :=
  meanUtility m.params (m.simulate n)

/-- Modelled from the spec (§4.3 step 1, absent from the code): the
per-agent one-compartment plasma concentration under the explicit
Euler update C(t+1) = C(t) + dt·(dose(t)/V - (CL/V)·C(t)), with the
spec's initial condition C(0) = 0. -/
def onecompEuler (V CL dt : ℚ) (dose : ℕ → ℚ) : ℕ → ℚ
  | 0 => 0
  | t + 1 =>
    onecompEuler V CL dt dose t +
      dt * (dose t / V - CL / V * onecompEuler V CL dt dose t)

/-- Modelled from the spec (§4.2 / claim C3, absent from the code): the
claimed oxaliplatin scheduler that tracks last_ox_index and doses at a
cycle's start index exactly when the index spacing since the last
successful dose reaches min_days_between_ox, updating the tracker on
each successful dose.  Returns (dose_ox, last_ox_index) after the
first n cycles. -/
def specOxLoop (m : FOLFOXModel) : ℕ → ((ℕ → ℚ) × Option ℕ)
  | 0 => (fun _ => 0, none)
  | c + 1 =>
    let prev := specOxLoop m c
    let dox := prev.1
    let last := prev.2
    let day1 := day1Idx m c
    let ok : Bool :=
      decide (day1 < m.T) &&
        (match last with
         | none => true
         | some l =>
           decide (m.params.dosing.min_days_between_ox ≤ (day1 : ℤ) - (l : ℤ)))
    if ok then
      (fun i => if i = day1 then m.max_single_ox_mg else dox i, some day1)
    else (dox, last)

/-- The claimed oxaliplatin dose sequence for N cycles (spec-side). -/
def specOxSchedule (m : FOLFOXModel) (N : ℕ) : ℕ → ℚ :=
  (specOxLoop m N).1

/-- A concrete parameter bundle: weight 36 kg and height 100 cm give
(height·weight)/3600 = 1, so the BSA is exactly 1. -/
def cexParams : FOLFOXParams :=
  { hematology :=
      { anc_baseline := 1
        anc_crit := 1 / 2
        k_out := 1 / 10
        k_tox_5fu_dose := 1 / 100
        k_tox_ox_dose := 1 / 100
        severe_neutropenia_threshold := 1 }
    neuropathy := { chronic_neuropathy_threshold_mg_m2 := 850 }
    dosing :=
      { max_daily_5fu_mg_m2 := 1
        max_single_ox_mg_m2 := 1
        min_days_between_ox := 14
        patient_weight_kg := 36
        patient_height_cm := 100 }
    utility :=
      { baseline_utility := 19 / 25
        neutropenia_penalty := -(1 / 5)
        neuropathy_penalty := -(6 / 25) }
    optimization := { horizon_days := 35, step_size_days := 7 }
    economics :=
      { cost_5fu_mg := 1 / 100
        cost_ox_mg := 1 / 10
        cost_infusion_day := 250
        cost_pump_day := 12
        cost_utility_factor := 1 / 1000 }
    tumor :=
      { initial_size := 100
        growth_rate := 1 / 100
        E_max := 4 / 5
        EC_50 := 70
        hill_coef := 1
        clearance_ox_L_h := 1
        clearance_5fu_L_h := 1
        alpha_ox := 1
        alpha_5fu := 1
        tumor_weight_in_utility := 1 / 10 } }

/-- The model built from cexParams: dt = 7 days, horizon 35 days,
T = 5 steps, BSA = 1, so the absolute max doses are 1 mg each. -/
def cexModel : FOLFOXModel :=
  { params := cexParams
    dt := 7
    horizon := 35
    T := 5
    bsa_m2 := 1
    max_daily_5fu_mg := 1
    max_single_ox_mg := 1
    chronic_neuro_thresh_mg := 850
    severe_neutropenia_thresh := 1 }

/-- The 5-FU dose sequence of cexModel for 2 requested cycles:
1 mg at indices 0,1 (cycle 0) and 2,3 (cycle 1), else 0. -/
def cexD5 : ℕ → ℚ := (cexModel.get_dosing_schedule 2).1

/-- The oxaliplatin dose sequence of cexModel for 2 requested cycles:
1 mg at indices 0 and 2, else 0. -/
def cexDox : ℕ → ℚ := (cexModel.get_dosing_schedule 2).2

/-- A model with min_days_between_ox = 21 > 14 and a daily step:
dt = 1 day, horizon 35 days, T = 35 steps.  Cycle start indices are
0, 14, 28. -/
def cexModel3 : FOLFOXModel :=
  { params :=
      { cexParams with
        dosing :=
          { max_daily_5fu_mg_m2 := 1
            max_single_ox_mg_m2 := 1
            min_days_between_ox := 21
            patient_weight_kg := 36
            patient_height_cm := 100 }
        optimization := { horizon_days := 35, step_size_days := 1 } }
    dt := 1
    horizon := 35
    T := 35
    bsa_m2 := 1
    max_daily_5fu_mg := 1
    max_single_ox_mg := 1
    chronic_neuro_thresh_mg := 850
    severe_neutropenia_thresh := 1 }

/-- A small benign model used to instantiate hypotheses in witnesses:
dt = 1 day, horizon 28 days, T = 28 steps, every constant nonnegative
and the chronic threshold positive. -/
def testModel : FOLFOXModel :=
  { params :=
      { cexParams with
        optimization := { horizon_days := 28, step_size_days := 1 } }
    dt := 1
    horizon := 28
    T := 28
    bsa_m2 := 1
    max_daily_5fu_mg := 1
    max_single_ox_mg := 1
    chronic_neuro_thresh_mg := 850
    severe_neutropenia_thresh := 1 }

/-- Rat.floor agrees with the floor of the FloorRing instance (the
instance is built from Rat.floor). -/
theorem ratFloor_eq_floor (q : ℚ) : q.floor = ⌊q⌋ := rfl

/-- cexModel is exactly what __init__ produces from cexParams. -/
theorem cexModel_ofParams :
    FOLFOXModel.ofParams cexParams 1 = Except.ok cexModel := by
  norm_num [FOLFOXModel.ofParams, cexParams, cexModel, ratFloor_eq_floor]
  rfl

section UnfoldLemmas

variable (m : FOLFOXModel) (d5 dox : ℕ → ℚ) (t : ℕ)

theorem ancSeq_zero : ancSeq m d5 dox 0 = m.params.hematology.anc_baseline := rfl

/-- The ANC update as the source computes it (model.py lines 107-114). -/
theorem ancSeq_succ :
    ancSeq m d5 dox (t + 1) =
      max 0 (ancSeq m d5 dox t +
        (m.params.hematology.k_out * m.params.hematology.anc_baseline -
          m.params.hematology.k_out * ancSeq m d5 dox t -
          (m.params.hematology.k_tox_5fu_dose * d5 t +
            m.params.hematology.k_tox_ox_dose * dox t) * ancSeq m d5 dox t) *
          m.dt) := rfl

theorem cumOxSeq_zero : cumOxSeq m d5 dox 0 = 0 := rfl

theorem cumOxSeq_succ :
    cumOxSeq m d5 dox (t + 1) = cumOxSeq m d5 dox t + dox t := rfl

theorem acuteSeq_zero : acuteSeq m d5 dox 0 = 0 := rfl

theorem acuteSeq_succ :
    acuteSeq m d5 dox (t + 1) = if dox t > 0 then 1 else 0 := rfl

theorem chronicSeq_zero : chronicSeq m d5 dox 0 = 0 := rfl

theorem chronicSeq_succ :
    chronicSeq m d5 dox (t + 1) =
      if cumOxSeq m d5 dox (t + 1) ≥ m.chronic_neuro_thresh_mg then 1
      else chronicSeq m d5 dox t := rfl

/-- eff_auc at step 0: no persistence term (model.py lines 143-144). -/
theorem effAucSeq_zero :
    effAucSeq m d5 dox 0 =
      m.params.tumor.alpha_ox * (dox 0 / m.params.tumor.clearance_ox_L_h) +
        m.params.tumor.alpha_5fu * (d5 0 / m.params.tumor.clearance_5fu_L_h) := rfl

/-- eff_auc at a later step carries 0.7 of the previous effective AUC
(model.py lines 139-142). -/
theorem effAucSeq_succ :
    effAucSeq m d5 dox (t + 1) =
      m.params.tumor.alpha_ox * (dox (t + 1) / m.params.tumor.clearance_ox_L_h) +
        m.params.tumor.alpha_5fu * (d5 (t + 1) / m.params.tumor.clearance_5fu_L_h) +
        effAucSeq m d5 dox t * (7 / 10) := by
  have h : 0 < t + 1 := Nat.succ_pos t
  simp only [effAucSeq, simStates, simStep, if_pos h]

/-- kill_rate from the same step's effective AUC (model.py 146-153). -/
theorem killRateSeq_eq :
    killRateSeq m d5 dox t =
      if effAucSeq m d5 dox t > 0 then
        m.params.tumor.E_max * effAucSeq m d5 dox t ^ m.params.tumor.hill_coef /
          (effAucSeq m d5 dox t ^ m.params.tumor.hill_coef +
            m.params.tumor.EC_50 ^ m.params.tumor.hill_coef)
      else 0 := rfl

theorem tumorSeq_zero : tumorSeq m d5 dox 0 = m.params.tumor.initial_size := rfl

theorem tumorSeq_succ :
    tumorSeq m d5 dox (t + 1) =
      max 0 (tumorSeq m d5 dox t +
        (m.params.tumor.growth_rate * tumorSeq m d5 dox t -
          killRateSeq m d5 dox t * tumorSeq m d5 dox t) * m.dt) := rfl

theorem dailyCostSeq_eq :
    dailyCostSeq m d5 dox t =
      (if d5 t > 0 then
        (if d5 t > 0 ∨ dox t > 0 then
          d5 t * m.params.economics.cost_5fu_mg +
            dox t * m.params.economics.cost_ox_mg +
            m.params.economics.cost_infusion_day
        else
          d5 t * m.params.economics.cost_5fu_mg +
            dox t * m.params.economics.cost_ox_mg) +
          m.params.economics.cost_pump_day
      else
        (if d5 t > 0 ∨ dox t > 0 then
          d5 t * m.params.economics.cost_5fu_mg +
            dox t * m.params.economics.cost_ox_mg +
            m.params.economics.cost_infusion_day
        else
          d5 t * m.params.economics.cost_5fu_mg +
            dox t * m.params.economics.cost_ox_mg)) := rfl

theorem totalCostSeq_zero : totalCostSeq m d5 dox 0 = 0 := rfl

theorem totalCostSeq_succ :
    totalCostSeq m d5 dox (t + 1) =
      totalCostSeq m d5 dox t + dailyCostSeq m d5 dox t := rfl

theorem utilitySeq_zero :
    utilitySeq m d5 dox 0 = m.params.utility.baseline_utility := rfl

end UnfoldLemmas

theorem cex_day1Idx_zero : day1Idx cexModel 0 = 0 := by
  norm_num [day1Idx, ratFloor_eq_floor, show cexModel.dt = 7 from rfl]

theorem cex_day1Idx_one : day1Idx cexModel 1 = 2 := by
  norm_num [day1Idx, ratFloor_eq_floor, show cexModel.dt = 7 from rfl,
    show Int.toNat 2 = 2 from rfl]

/-- The 5-FU doses of the two-cycle schedule of cexModel at steps
0..4: 1 mg on the cycle days 0,1,2,3 and nothing on day 4. -/
theorem cexD5_vals :
    cexD5 0 = 1 ∧ cexD5 1 = 1 ∧ cexD5 2 = 1 ∧ cexD5 3 = 1 ∧ cexD5 4 = 0 := by
  refine ⟨?_, ?_, ?_, ?_, ?_⟩ <;>
  · show (schedLoop cexModel (0 + 1 + 1)).1 _ = _
    simp only [schedLoop]
    norm_num [cex_day1Idx_zero, cex_day1Idx_one, show cexModel.T = 5 from rfl,
      show cexModel.params.dosing.min_days_between_ox = 14 from rfl,
      show cexModel.max_daily_5fu_mg = 1 from rfl]

/-- The oxaliplatin doses of the two-cycle schedule of cexModel at
steps 0..4: 1 mg at each cycle start (0 and 2), else nothing. -/
theorem cexDox_vals :
    cexDox 0 = 1 ∧ cexDox 1 = 0 ∧ cexDox 2 = 1 ∧ cexDox 3 = 0 ∧ cexDox 4 = 0 := by
  refine ⟨?_, ?_, ?_, ?_, ?_⟩ <;>
  · show (schedLoop cexModel (0 + 1 + 1)).2 _ = _
    simp only [schedLoop]
    norm_num [cex_day1Idx_zero, cex_day1Idx_one, show cexModel.T = 5 from rfl,
      show cexModel.params.dosing.min_days_between_ox = 14 from rfl,
      show cexModel.max_single_ox_mg = 1 from rfl]

/-- The effective-AUC trace of the two-cycle cexModel run. -/
theorem cexEff_vals :
    effAucSeq cexModel cexD5 cexDox 0 = 2 ∧
      effAucSeq cexModel cexD5 cexDox 1 = 12 / 5 ∧
      effAucSeq cexModel cexD5 cexDox 2 = 92 / 25 ∧
      effAucSeq cexModel cexD5 cexDox 3 = 447 / 125 ∧
      effAucSeq cexModel cexD5 cexDox 4 = 3129 / 1250 := by
  obtain ⟨hd0, hd1, hd2, hd3, hd4⟩ := cexD5_vals
  obtain ⟨ho0, ho1, ho2, ho3, ho4⟩ := cexDox_vals
  have hp : cexModel.params.tumor.alpha_ox = 1 ∧
      cexModel.params.tumor.alpha_5fu = 1 ∧
      cexModel.params.tumor.clearance_ox_L_h = 1 ∧
      cexModel.params.tumor.clearance_5fu_L_h = 1 := ⟨rfl, rfl, rfl, rfl⟩
  obtain ⟨ha, hb, hc, hd⟩ := hp
  have e0 : effAucSeq cexModel cexD5 cexDox 0 = 2 := by
    rw [effAucSeq_zero, ha, hb, hc, hd, hd0, ho0]; norm_num
  have e1 : effAucSeq cexModel cexD5 cexDox 1 = 12 / 5 := by
    show effAucSeq cexModel cexD5 cexDox (0 + 1) = 12 / 5
    rw [effAucSeq_succ, ha, hb, hc, hd, e0]
    norm_num [hd1, ho1]
  have e2 : effAucSeq cexModel cexD5 cexDox 2 = 92 / 25 := by
    show effAucSeq cexModel cexD5 cexDox (1 + 1) = 92 / 25
    rw [effAucSeq_succ, ha, hb, hc, hd, e1]
    norm_num [hd2, ho2]
  have e3 : effAucSeq cexModel cexD5 cexDox 3 = 447 / 125 := by
    show effAucSeq cexModel cexD5 cexDox (2 + 1) = 447 / 125
    rw [effAucSeq_succ, ha, hb, hc, hd, e2]
    norm_num [hd3, ho3]
  have e4 : effAucSeq cexModel cexD5 cexDox 4 = 3129 / 1250 := by
    show effAucSeq cexModel cexD5 cexDox (3 + 1) = 3129 / 1250
    rw [effAucSeq_succ, ha, hb, hc, hd, e3]
    norm_num [hd4, ho4]
  exact ⟨e0, e1, e2, e3, e4⟩

/-- ANC after the first step of the two-cycle cexModel run: the doses
at step 0 knock it from 1 down to 43/50. -/
theorem cexAnc1 : ancSeq cexModel cexD5 cexDox 1 = 43 / 50 := by
  obtain ⟨hd0, -, -, -, -⟩ := cexD5_vals
  obtain ⟨ho0, -, -, -, -⟩ := cexDox_vals
  show ancSeq cexModel cexD5 cexDox (0 + 1) = 43 / 50
  rw [ancSeq_succ, ancSeq_zero, hd0, ho0,
    show cexModel.params.hematology.k_out = 1 / 10 from rfl,
    show cexModel.params.hematology.anc_baseline = 1 from rfl,
    show cexModel.params.hematology.k_tox_5fu_dose = 1 / 100 from rfl,
    show cexModel.params.hematology.k_tox_ox_dose = 1 / 100 from rfl,
    show cexModel.dt = 7 from rfl]
  rw [show ((0:ℚ) ⊔ (1 + (1 / 10 * 1 - 1 / 10 * 1 - (1 / 100 * 1 + 1 / 100 * 1) * 1) * 7)) = max 0 (43 / 50) by norm_num]
  exact max_eq_right (by norm_num)

/-- The kill rate at step 4 of the two-cycle cexModel run is strictly
positive although no drug is dosed at step 4. -/
theorem cexKill4_pos : 0 < killRateSeq cexModel cexD5 cexDox 4 := by
  obtain ⟨-, -, -, -, e4⟩ := cexEff_vals
  rw [killRateSeq_eq, e4,
    show cexModel.params.tumor.E_max = 4 / 5 from rfl,
    show cexModel.params.tumor.EC_50 = 70 from rfl,
    show cexModel.params.tumor.hill_coef = 1 from rfl]
  norm_num

/-- Claim C1 (counterexample): in the two-cycle run of cexModel, the
trace's only exposure sequence (effective_auc) satisfies the claimed
per-agent one-compartment Euler update C(t+1) = C(t) +
dt·(dose(t)/V - (CL/V)·C(t)) for NO volume/clearance pair, neither
read against agent B's doses (first conjunct) nor against agent A's
doses (second conjunct). -/
theorem no_per_agent_onecompartment_cex :
    (¬ ∃ V CL : ℚ, ∀ t, t + 1 < 5 →
        effAucSeq cexModel cexD5 cexDox (t + 1) =
          effAucSeq cexModel cexD5 cexDox t +
            cexModel.dt * (cexDox t / V - CL / V * effAucSeq cexModel cexD5 cexDox t)) ∧
    (¬ ∃ V CL : ℚ, ∀ t, t + 1 < 5 →
        effAucSeq cexModel cexD5 cexDox (t + 1) =
          effAucSeq cexModel cexD5 cexDox t +
            cexModel.dt * (cexD5 t / V - CL / V * effAucSeq cexModel cexD5 cexDox t)) := by
  obtain ⟨e0, e1, e2, e3, e4⟩ := cexEff_vals
  obtain ⟨hd0, hd1, hd2, hd3, hd4⟩ := cexD5_vals
  obtain ⟨ho0, ho1, ho2, ho3, ho4⟩ := cexDox_vals
  constructor
  · rintro ⟨V, CL, h⟩
    have h1 := h 1 (by norm_num)
    have h3 := h 3 (by norm_num)
    norm_num [show cexModel.dt = 7 from rfl] at h1 h3
    rw [e1, e2, ho1] at h1
    rw [e3, e4, ho3] at h3
    rw [zero_div] at h1 h3
    generalize hx : CL / V = x at h1 h3
    have hx1 : x = -(8 / 105) := by linarith
    have hx2 : x = 3 / 70 := by linarith
    rw [hx1] at hx2
    norm_num at hx2
  · rintro ⟨V, CL, h⟩
    have h0 := h 0 (by norm_num)
    have h1 := h 1 (by norm_num)
    have h2 := h 2 (by norm_num)
    norm_num [show cexModel.dt = 7 from rfl] at h0 h1 h2
    rw [e0, e1, hd0] at h0
    rw [e1, e2, hd1] at h1
    rw [e2, e3, hd2] at h2
    generalize hu : 1 / V = u at h0 h1 h2
    generalize hx : CL / V = x at h0 h1 h2
    have hx1 : x = -(16 / 35) := by linarith
    have hx2 : x = 13 / 1120 := by linarith
    rw [hx1] at hx2
    norm_num at hx2

/-- Claim C1 (amended): the simulator computes a single combined
effective exposure signal, eff_auc(t) = alpha_ox·(dose_ox(t)/CL_ox) +
alpha_5fu·(dose_5fu(t)/CL_5fu) + 0.7·eff_auc(t-1) (persistence term
absent at t = 0), and the returned trace carries this combined
effective-AUC sequence (padded with a trailing zero) as its exposure
field, not per-agent plasma concentrations. -/
theorem effective_auc_replaces_plasma_concentration :
    (∀ (m : FOLFOXModel) (N : ℕ),
        (m.simulate N).effective_auc =
          (List.ofFn fun t : Fin m.T =>
            effAucSeq m (m.get_dosing_schedule N).1 (m.get_dosing_schedule N).2 t) ++
            [0]) ∧
    (∀ (m : FOLFOXModel) (d5 dox : ℕ → ℚ) (t : ℕ),
        effAucSeq m d5 dox (t + 1) =
          m.params.tumor.alpha_ox * (dox (t + 1) / m.params.tumor.clearance_ox_L_h) +
            m.params.tumor.alpha_5fu * (d5 (t + 1) / m.params.tumor.clearance_5fu_L_h) +
            (7 / 10) * effAucSeq m d5 dox t) ∧
    (∀ (m : FOLFOXModel) (d5 dox : ℕ → ℚ),
        effAucSeq m d5 dox 0 =
          m.params.tumor.alpha_ox * (dox 0 / m.params.tumor.clearance_ox_L_h) +
            m.params.tumor.alpha_5fu * (d5 0 / m.params.tumor.clearance_5fu_L_h)) := by
  refine ⟨fun m N => rfl, fun m d5 dox t => ?_, fun m d5 dox => effAucSeq_zero m d5 dox⟩
  rw [effAucSeq_succ]
  ring

/-- Claim C4 (counterexample): at step 0 of the two-cycle cexModel run
the ANC drops below baseline, while the claimed update driven by
one-compartment plasma concentrations (which the spec starts at
C(0) = 0) would leave it at baseline, whatever the per-agent volume
and clearance parameters. -/
theorem anc_concentration_claim_cex :
    ¬ ∃ VA CLA VB CLB : ℚ,
        ancSeq cexModel cexD5 cexDox 1 =
          max 0 (ancSeq cexModel cexD5 cexDox 0 + cexModel.dt *
            (cexModel.params.hematology.k_out * cexModel.params.hematology.anc_baseline -
              cexModel.params.hematology.k_out * ancSeq cexModel cexD5 cexDox 0 -
              (cexModel.params.hematology.k_tox_5fu_dose *
                  onecompEuler VA CLA cexModel.dt cexD5 0 +
                cexModel.params.hematology.k_tox_ox_dose *
                  onecompEuler VB CLB cexModel.dt cexDox 0) *
                ancSeq cexModel cexD5 cexDox 0)) := by
  rintro ⟨VA, CLA, VB, CLB, h⟩
  rw [cexAnc1, ancSeq_zero,
    show onecompEuler VA CLA cexModel.dt cexD5 0 = 0 from rfl,
    show onecompEuler VB CLB cexModel.dt cexDox 0 = 0 from rfl,
    show cexModel.params.hematology.k_out = 1 / 10 from rfl,
    show cexModel.params.hematology.anc_baseline = 1 from rfl,
    show cexModel.params.hematology.k_tox_5fu_dose = 1 / 100 from rfl,
    show cexModel.params.hematology.k_tox_ox_dose = 1 / 100 from rfl,
    show cexModel.dt = 7 from rfl] at h
  rw [show ((1:ℚ) + 7 * (1 / 10 * 1 - 1 / 10 * 1 - (1 / 100 * 0 + 1 / 100 * 0) * 1)) = 1
      by norm_num,
    max_eq_right (by norm_num : (0:ℚ) ≤ 1)] at h
  norm_num at h

/-- Claim C4 (amended): the neutrophil count is updated as
ANC(t+1) = max(0, ANC(t) + dt·(k_out·ANC_baseline - k_out·ANC(t) -
(k_tox_5fu·dose_5fu(t) + k_tox_ox·dose_ox(t))·ANC(t))): the toxicity
term is driven by the same-step doses, not by plasma concentrations
(which the code does not compute). -/
theorem anc_update_dose_driven :
    ∀ (m : FOLFOXModel) (d5 dox : ℕ → ℚ) (t : ℕ),
      ancSeq m d5 dox (t + 1) =
        max 0 (ancSeq m d5 dox t + m.dt *
          (m.params.hematology.k_out * m.params.hematology.anc_baseline -
            m.params.hematology.k_out * ancSeq m d5 dox t -
            (m.params.hematology.k_tox_5fu_dose * d5 t +
              m.params.hematology.k_tox_ox_dose * dox t) * ancSeq m d5 dox t)) := by
  intro m d5 dox t
  rw [ancSeq_succ]
  congr 1
  ring

/-- Claim C10: the effective exposure signal carries over residual
drug effect, eff_auc(t) = alpha_ox·(dose_ox(t)/CL_ox) +
alpha_5fu·(dose_5fu(t)/CL_5fu) + 0.7·eff_auc(t-1) for t > 0 with the
persistence term absent at t = 0; consequently the kill rate is
strictly positive at step 4 of the two-cycle cexModel run although
both doses are zero there. -/
theorem effauc_persistence_and_residual_kill :
    (∀ (m : FOLFOXModel) (d5 dox : ℕ → ℚ) (t : ℕ),
        effAucSeq m d5 dox (t + 1) =
          m.params.tumor.alpha_ox * (dox (t + 1) / m.params.tumor.clearance_ox_L_h) +
            m.params.tumor.alpha_5fu * (d5 (t + 1) / m.params.tumor.clearance_5fu_L_h) +
            (7 / 10) * effAucSeq m d5 dox t) ∧
    (∀ (m : FOLFOXModel) (d5 dox : ℕ → ℚ),
        effAucSeq m d5 dox 0 =
          m.params.tumor.alpha_ox * (dox 0 / m.params.tumor.clearance_ox_L_h) +
            m.params.tumor.alpha_5fu * (d5 0 / m.params.tumor.clearance_5fu_L_h)) ∧
    (cexD5 4 = 0 ∧ cexDox 4 = 0 ∧ 0 < killRateSeq cexModel cexD5 cexDox 4) := by
  refine ⟨fun m d5 dox t => ?_, fun m d5 dox => effAucSeq_zero m d5 dox,
    cexD5_vals.2.2.2.2, cexDox_vals.2.2.2.2, cexKill4_pos⟩
  rw [effAucSeq_succ]
  ring

/-- Closed form of the oxaliplatin schedule: the max single dose sits
exactly at the in-horizon cycle-start indices of cycles that are
either cycle 0 or pass the fixed test min_days_between_ox ≤ 14. -/
theorem schedLoop_ox_char (m : FOLFOXModel) (N i : ℕ) :
    (schedLoop m N).2 i =
      if ∃ c ∈ Finset.range N, day1Idx m c = i ∧ i < m.T ∧
          (c = 0 ∨ m.params.dosing.min_days_between_ox ≤ 14) then
        m.max_single_ox_mg
      else 0 := by
  induction N with
  | zero => simp [schedLoop]
  | succ c ih =>
    simp only [schedLoop]
    rw [Finset.range_succ]
    by_cases hcond : day1Idx m c < m.T ∧
        (c = 0 ∨ m.params.dosing.min_days_between_ox ≤ 14)
    · rw [if_pos hcond]
      by_cases hi : i = day1Idx m c
      · simp only [if_pos hi]
        rw [if_pos ⟨c, Finset.mem_insert_self c _, hi.symm, hi ▸ hcond.1, hcond.2⟩]
      · simp only [if_neg hi]
        rw [ih]
        refine if_congr ?_ rfl rfl
        rw [Finset.exists_mem_insert]
        constructor
        · exact fun h => Or.inr h
        · rintro (⟨h1, -, -⟩ | h)
          · exact absurd h1.symm hi
          · exact h
    · rw [if_neg hcond, ih]
      refine if_congr ?_ rfl rfl
      constructor
      · rintro ⟨c', hc', hq⟩
        exact ⟨c', Finset.mem_insert_of_mem hc', hq⟩
      · rw [Finset.exists_mem_insert]
        rintro (⟨h1, h2, h3⟩ | h)
        · exact absurd ⟨h1 ▸ h2, h3⟩ hcond
        · exact h

/-- Closed form of the 5-FU schedule: the max daily dose sits exactly
at the in-horizon cycle-start indices and their successors. -/
theorem schedLoop_5fu_char (m : FOLFOXModel) (N i : ℕ) :
    (schedLoop m N).1 i =
      if ∃ c ∈ Finset.range N,
          (day1Idx m c = i ∨ day1Idx m c + 1 = i) ∧ i < m.T then
        m.max_daily_5fu_mg
      else 0 := by
  induction N with
  | zero => simp [schedLoop]
  | succ c ih =>
    simp only [schedLoop]
    rw [Finset.range_succ]
    have hstep :
        (∃ c' ∈ insert c (Finset.range c),
            (day1Idx m c' = i ∨ day1Idx m c' + 1 = i) ∧ i < m.T) ↔
          (((day1Idx m c = i ∨ day1Idx m c + 1 = i) ∧ i < m.T) ∨
            ∃ c' ∈ Finset.range c,
              (day1Idx m c' = i ∨ day1Idx m c' + 1 = i) ∧ i < m.T) :=
      Finset.exists_mem_insert _ _ _
    by_cases hc2 : day1Idx m c + 1 < m.T
    · rw [if_pos hc2]
      by_cases hi2 : i = day1Idx m c + 1
      · simp only [if_pos hi2]
        rw [if_pos]
        rw [hstep]
        exact Or.inl ⟨Or.inr hi2.symm, hi2 ▸ hc2⟩
      · simp only [if_neg hi2]
        by_cases hc1 : day1Idx m c < m.T
        · rw [if_pos hc1]
          by_cases hi1 : i = day1Idx m c
          · simp only [if_pos hi1]
            rw [if_pos]
            rw [hstep]
            exact Or.inl ⟨Or.inl hi1.symm, hi1 ▸ hc1⟩
          · simp only [if_neg hi1]
            rw [ih]
            refine if_congr ?_ rfl rfl
            rw [hstep]
            constructor
            · exact fun h => Or.inr h
            · rintro (⟨h1 | h1, -⟩ | h)
              · exact absurd h1.symm hi1
              · exact absurd h1.symm hi2
              · exact h
        · exact absurd (Nat.lt_of_succ_lt hc2) hc1
    · rw [if_neg hc2]
      by_cases hc1 : day1Idx m c < m.T
      · rw [if_pos hc1]
        by_cases hi1 : i = day1Idx m c
        · simp only [if_pos hi1]
          rw [if_pos]
          rw [hstep]
          exact Or.inl ⟨Or.inl hi1.symm, hi1 ▸ hc1⟩
        · simp only [if_neg hi1]
          rw [ih]
          refine if_congr ?_ rfl rfl
          rw [hstep]
          constructor
          · exact fun h => Or.inr h
          · rintro (⟨h1 | h1, hT⟩ | h)
            · exact absurd h1.symm hi1
            · exact absurd (h1 ▸ hT) hc2
            · exact h
      · rw [if_neg hc1, ih]
        refine if_congr ?_ rfl rfl
        rw [hstep]
        constructor
        · exact fun h => Or.inr h
        · rintro (⟨h1 | h1, hT⟩ | h)
          · exact absurd (h1 ▸ hT) hc1
          · exact absurd (h1 ▸ hT) hc2
          · exact h

/-- Claim C3 (amended): agent B's max single dose is scheduled at a
cycle's start index exactly when that index is inside the horizon and
the cycle is cycle 0 or the fixed test min_days_between_ox ≤ 14 (the
cycle length) passes.  No last-dose index is tracked, so when
min_days_between_ox > 14 every cycle after cycle 0 is skipped, no
matter how much spacing has accumulated. -/
theorem ox_schedule_cycle_condition :
    ∀ (m : FOLFOXModel) (N i : ℕ),
      (m.get_dosing_schedule N).2 i =
        if ∃ c ∈ Finset.range N, day1Idx m c = i ∧ i < m.T ∧
            (c = 0 ∨ m.params.dosing.min_days_between_ox ≤ 14) then
          m.max_single_ox_mg
        else 0 :=
  fun m N i => schedLoop_ox_char m N i

theorem cex3_day1_0 : day1Idx cexModel3 0 = 0 := by
  norm_num [day1Idx, ratFloor_eq_floor, show cexModel3.dt = 1 from rfl]

theorem cex3_day1_1 : day1Idx cexModel3 1 = 14 := by
  norm_num [day1Idx, ratFloor_eq_floor, show cexModel3.dt = 1 from rfl,
    show Int.toNat 14 = 14 from rfl]

theorem cex3_day1_2 : day1Idx cexModel3 2 = 28 := by
  norm_num [day1Idx, ratFloor_eq_floor, show cexModel3.dt = 1 from rfl,
    show Int.toNat 28 = 28 from rfl]

/-- The code's three-cycle schedule on cexModel3 gives no oxaliplatin
at index 28 (cycle 2's start): min_days_between_ox = 21 > 14 blocks
every cycle after cycle 0. -/
theorem cex3_dox28 : (cexModel3.get_dosing_schedule 3).2 28 = 0 := by
  rw [show (cexModel3.get_dosing_schedule 3).2 28 = (schedLoop cexModel3 3).2 28
      from rfl,
    schedLoop_ox_char]
  rw [if_neg]
  rintro ⟨c, hc, h1, h2, h3⟩
  rw [Finset.mem_range] at hc
  interval_cases c
  · rw [cex3_day1_0] at h1
    exact absurd h1 (by norm_num)
  · rw [cex3_day1_1] at h1
    exact absurd h1 (by norm_num)
  · rcases h3 with h3 | h3
    · exact absurd h3 (by norm_num)
    · rw [show cexModel3.params.dosing.min_days_between_ox = 21 from rfl] at h3
      exact absurd h3 (by norm_num)

/-- The claimed last-dose-tracking scheduler doses oxaliplatin at
index 28 on cexModel3: cycle 1 (index 14) is skipped for spacing, and
by cycle 2 the accumulated spacing 28 - 0 reaches 21. -/
theorem cex3_spec28 : specOxSchedule cexModel3 3 28 = 1 := by
  show (specOxLoop cexModel3 (0 + 1 + 1 + 1)).1 28 = 1
  simp only [specOxLoop]
  norm_num [cex3_day1_0, cex3_day1_1, cex3_day1_2,
    show cexModel3.T = 35 from rfl,
    show cexModel3.params.dosing.min_days_between_ox = 21 from rfl,
    show cexModel3.max_single_ox_mg = 1 from rfl]

/-- Claim C3 (counterexample): the code's oxaliplatin schedule is not
the claimed spacing-tracking schedule.  On cexModel3 with three cycles
the code leaves index 28 undosed although the spacing since the last
actual dose (index 0) is 28 ≥ min_days_between_ox = 21. -/
theorem ox_spacing_claim_cex :
    ¬ ∀ i, (cexModel3.get_dosing_schedule 3).2 i = specOxSchedule cexModel3 3 i := by
  intro h
  have h28 := h 28
  rw [cex3_dox28, cex3_spec28] at h28
  exact absurd h28 (by norm_num)

/-- ANC and tumor size stay nonnegative step over step: both updates
are floored by max 0. -/
theorem state_nonneg (m : FOLFOXModel) (d5 dox : ℕ → ℚ)
    (h1 : 0 ≤ m.params.hematology.anc_baseline)
    (h2 : 0 ≤ m.params.tumor.initial_size) :
    ∀ t, 0 ≤ ancSeq m d5 dox t ∧ 0 ≤ tumorSeq m d5 dox t := by
  intro t
  induction t with
  | zero => exact ⟨h1, h2⟩
  | succ t ih =>
    refine ⟨?_, ?_⟩
    · rw [ancSeq_succ]
      exact le_max_left 0 _
    · rw [tumorSeq_succ]
      exact le_max_left 0 _

/-- Claim C8: for every model and cycle count, every ANC entry and
every disease-burden entry of the returned trace is nonnegative (for
a valid bundle, i.e. nonnegative baseline ANC and initial size). -/
theorem trace_nonnegativity (m : FOLFOXModel) (N : ℕ)
    (h1 : 0 ≤ m.params.hematology.anc_baseline)
    (h2 : 0 ≤ m.params.tumor.initial_size) :
    (∀ x ∈ (m.simulate N).anc, 0 ≤ x) ∧
      (∀ x ∈ (m.simulate N).tumor_size, 0 ≤ x) := by
  constructor <;> intro x hx
  · rw [show (m.simulate N).anc = List.ofFn fun t : Fin (m.T + 1) =>
        ancSeq m (m.get_dosing_schedule N).1 (m.get_dosing_schedule N).2 t from rfl,
      List.mem_ofFn] at hx
    obtain ⟨i, rfl⟩ := hx
    exact (state_nonneg m _ _ h1 h2 i).1
  · rw [show (m.simulate N).tumor_size = List.ofFn fun t : Fin (m.T + 1) =>
        tumorSeq m (m.get_dosing_schedule N).1 (m.get_dosing_schedule N).2 t from rfl,
      List.mem_ofFn] at hx
    obtain ⟨i, rfl⟩ := hx
    exact (state_nonneg m _ _ h1 h2 i).2

/-- Witness for claim C8 at the concrete testModel with one cycle. -/
theorem trace_nonnegativity_witness :
    ((0:ℚ) ≤ testModel.params.hematology.anc_baseline ∧
      (0:ℚ) ≤ testModel.params.tumor.initial_size) ∧
      ((∀ x ∈ (testModel.simulate 1).anc, 0 ≤ x) ∧
        (∀ x ∈ (testModel.simulate 1).tumor_size, 0 ≤ x)) :=
  ⟨⟨by norm_num [show testModel.params.hematology.anc_baseline = 1 from rfl],
    by norm_num [show testModel.params.tumor.initial_size = 100 from rfl]⟩,
    trace_nonnegativity testModel 1
      (by norm_num [show testModel.params.hematology.anc_baseline = 1 from rfl])
      (by norm_num [show testModel.params.tumor.initial_size = 100 from rfl])⟩

/-- The chronic flag only ever holds 0 or 1. -/
theorem chronic_le_one (m : FOLFOXModel) (d5 dox : ℕ → ℚ) :
    ∀ t, chronicSeq m d5 dox t ≤ 1 := by
  intro t
  induction t with
  | zero => exact Nat.zero_le 1
  | succ t ih =>
    rw [chronicSeq_succ]
    split
    · exact le_refl 1
    · exact ih

/-- Both generated dose sequences are pointwise nonnegative when the
absolute dose limits are. -/
theorem sched_nonneg (m : FOLFOXModel) (N : ℕ)
    (h5 : 0 ≤ m.max_daily_5fu_mg) (hox : 0 ≤ m.max_single_ox_mg) (i : ℕ) :
    0 ≤ (m.get_dosing_schedule N).1 i ∧ 0 ≤ (m.get_dosing_schedule N).2 i := by
  constructor
  · rw [show (m.get_dosing_schedule N).1 i = (schedLoop m N).1 i from rfl,
      schedLoop_5fu_char]
    split
    · exact h5
    · exact le_refl 0
  · rw [show (m.get_dosing_schedule N).2 i = (schedLoop m N).2 i from rfl,
      schedLoop_ox_char]
    split
    · exact hox
    · exact le_refl 0

/-- The daily cost is nonnegative for nonnegative doses and cost
parameters. -/
theorem daily_cost_nonneg (m : FOLFOXModel) (d5 dox : ℕ → ℚ) (t : ℕ)
    (hd5 : 0 ≤ d5 t) (hdox : 0 ≤ dox t)
    (hc5 : 0 ≤ m.params.economics.cost_5fu_mg)
    (hcox : 0 ≤ m.params.economics.cost_ox_mg)
    (hinf : 0 ≤ m.params.economics.cost_infusion_day)
    (hpump : 0 ≤ m.params.economics.cost_pump_day) :
    0 ≤ dailyCostSeq m d5 dox t := by
  rw [dailyCostSeq_eq]
  have ha := mul_nonneg hd5 hc5
  have hb := mul_nonneg hdox hcox
  split_ifs <;> linarith

/-- Claim C9: within one trace (nonnegative dose limits, nonnegative
cost parameters) the chronic-neuropathy flag, the cumulative
oxaliplatin exposure and the cumulative cost are each monotone
nondecreasing across every consecutive pair of steps. -/
theorem trace_monotonicity (m : FOLFOXModel) (N : ℕ)
    (h5 : 0 ≤ m.max_daily_5fu_mg) (hox : 0 ≤ m.max_single_ox_mg)
    (hc5 : 0 ≤ m.params.economics.cost_5fu_mg)
    (hcox : 0 ≤ m.params.economics.cost_ox_mg)
    (hinf : 0 ≤ m.params.economics.cost_infusion_day)
    (hpump : 0 ≤ m.params.economics.cost_pump_day) :
    ∀ t,
      chronicSeq m (m.get_dosing_schedule N).1 (m.get_dosing_schedule N).2 t ≤
        chronicSeq m (m.get_dosing_schedule N).1 (m.get_dosing_schedule N).2 (t + 1) ∧
      cumOxSeq m (m.get_dosing_schedule N).1 (m.get_dosing_schedule N).2 t ≤
        cumOxSeq m (m.get_dosing_schedule N).1 (m.get_dosing_schedule N).2 (t + 1) ∧
      totalCostSeq m (m.get_dosing_schedule N).1 (m.get_dosing_schedule N).2 t ≤
        totalCostSeq m (m.get_dosing_schedule N).1 (m.get_dosing_schedule N).2 (t + 1) := by
  intro t
  refine ⟨?_, ?_, ?_⟩
  · rw [chronicSeq_succ]
    split
    · exact chronic_le_one m _ _ t
    · exact le_refl _
  · rw [cumOxSeq_succ]
    have h := (sched_nonneg m N h5 hox t).2
    linarith
  · rw [totalCostSeq_succ]
    have h := daily_cost_nonneg m (m.get_dosing_schedule N).1
      (m.get_dosing_schedule N).2 t (sched_nonneg m N h5 hox t).1
      (sched_nonneg m N h5 hox t).2 hc5 hcox hinf hpump
    linarith

/-- Witness for claim C9 at the concrete testModel with one cycle. -/
theorem trace_monotonicity_witness :
    ((0:ℚ) ≤ testModel.max_daily_5fu_mg ∧ (0:ℚ) ≤ testModel.max_single_ox_mg ∧
      (0:ℚ) ≤ testModel.params.economics.cost_5fu_mg ∧
      (0:ℚ) ≤ testModel.params.economics.cost_ox_mg ∧
      (0:ℚ) ≤ testModel.params.economics.cost_infusion_day ∧
      (0:ℚ) ≤ testModel.params.economics.cost_pump_day) ∧
      (∀ t,
        chronicSeq testModel (testModel.get_dosing_schedule 1).1
            (testModel.get_dosing_schedule 1).2 t ≤
          chronicSeq testModel (testModel.get_dosing_schedule 1).1
            (testModel.get_dosing_schedule 1).2 (t + 1) ∧
        cumOxSeq testModel (testModel.get_dosing_schedule 1).1
            (testModel.get_dosing_schedule 1).2 t ≤
          cumOxSeq testModel (testModel.get_dosing_schedule 1).1
            (testModel.get_dosing_schedule 1).2 (t + 1) ∧
        totalCostSeq testModel (testModel.get_dosing_schedule 1).1
            (testModel.get_dosing_schedule 1).2 t ≤
          totalCostSeq testModel (testModel.get_dosing_schedule 1).1
            (testModel.get_dosing_schedule 1).2 (t + 1)) :=
  ⟨⟨by norm_num [show testModel.max_daily_5fu_mg = 1 from rfl],
    by norm_num [show testModel.max_single_ox_mg = 1 from rfl],
    by norm_num [show testModel.params.economics.cost_5fu_mg = 1 / 100 from rfl],
    by norm_num [show testModel.params.economics.cost_ox_mg = 1 / 10 from rfl],
    by norm_num [show testModel.params.economics.cost_infusion_day = 250 from rfl],
    by norm_num [show testModel.params.economics.cost_pump_day = 12 from rfl]⟩,
    trace_monotonicity testModel 1
      (by norm_num [show testModel.max_daily_5fu_mg = 1 from rfl])
      (by norm_num [show testModel.max_single_ox_mg = 1 from rfl])
      (by norm_num [show testModel.params.economics.cost_5fu_mg = 1 / 100 from rfl])
      (by norm_num [show testModel.params.economics.cost_ox_mg = 1 / 10 from rfl])
      (by norm_num [show testModel.params.economics.cost_infusion_day = 250 from rfl])
      (by norm_num [show testModel.params.economics.cost_pump_day = 12 from rfl])⟩

/-- The invariant of an undosed run: ANC pinned at baseline, zero
cumulative exposure, chronic flag off, zero effective AUC, and a
nonnegative tumor burden. -/
theorem zeroRun (m : FOLFOXModel)
    (h1 : 0 ≤ m.params.hematology.anc_baseline)
    (h2 : 0 < m.chronic_neuro_thresh_mg)
    (h3 : 0 ≤ m.params.tumor.initial_size) :
    ∀ t, ancSeq m (fun _ => 0) (fun _ => 0) t = m.params.hematology.anc_baseline ∧
      cumOxSeq m (fun _ => 0) (fun _ => 0) t = 0 ∧
      chronicSeq m (fun _ => 0) (fun _ => 0) t = 0 ∧
      (simStates m (fun _ => 0) (fun _ => 0) t).eff_auc = 0 ∧
      0 ≤ tumorSeq m (fun _ => 0) (fun _ => 0) t := by
  intro t
  induction t with
  | zero => exact ⟨rfl, rfl, rfl, rfl, h3⟩
  | succ t ih =>
    obtain ⟨ha, hc, hch, he, ht⟩ := ih
    have hcum : cumOxSeq m (fun _ => 0) (fun _ => 0) (t + 1) = 0 := by
      rw [cumOxSeq_succ, hc]
      norm_num
    have heff : (simStates m (fun _ => 0) (fun _ => 0) (t + 1)).eff_auc = 0 := by
      show effAucSeq m (fun _ => 0) (fun _ => 0) t = 0
      cases t with
      | zero =>
        rw [effAucSeq_zero]
        norm_num
      | succ s =>
        rw [effAucSeq_succ]
        have hprev : effAucSeq m (fun _ => 0) (fun _ => 0) s = 0 := he
        rw [hprev]
        norm_num
    refine ⟨?_, hcum, ?_, heff, ?_⟩
    · rw [ancSeq_succ, ha]
      have hz : m.params.hematology.anc_baseline +
          (m.params.hematology.k_out * m.params.hematology.anc_baseline -
            m.params.hematology.k_out * m.params.hematology.anc_baseline -
            (m.params.hematology.k_tox_5fu_dose * (0:ℚ) +
              m.params.hematology.k_tox_ox_dose * (0:ℚ)) *
              m.params.hematology.anc_baseline) * m.dt =
          m.params.hematology.anc_baseline := by ring
      rw [hz]
      exact max_eq_right h1
    · rw [chronicSeq_succ, hcum, if_neg (not_le.mpr h2)]
      exact hch
    · rw [tumorSeq_succ]
      exact le_max_left 0 _

/-- Claim C7: with cycle count 0 both dose sequences are identically
zero, ANC stays exactly at baseline, both neuropathy flags stay 0, and
the disease burden follows pure exponential growth
size(t+1) = size(t) + dt·growth_rate·size(t) (hypotheses: nonnegative
baseline ANC, initial size, growth rate and step size, and a positive
chronic threshold — the spec's validity conditions). -/
theorem zero_cycles_trace (m : FOLFOXModel)
    (h1 : 0 ≤ m.params.hematology.anc_baseline)
    (h2 : 0 < m.chronic_neuro_thresh_mg)
    (h3 : 0 ≤ m.params.tumor.initial_size)
    (h4 : 0 ≤ m.params.tumor.growth_rate)
    (h5 : 0 ≤ m.dt) :
    (∀ i, (m.get_dosing_schedule 0).1 i = 0 ∧ (m.get_dosing_schedule 0).2 i = 0) ∧
    (∀ t, ancSeq m (m.get_dosing_schedule 0).1 (m.get_dosing_schedule 0).2 t =
      m.params.hematology.anc_baseline) ∧
    (∀ t, acuteSeq m (m.get_dosing_schedule 0).1 (m.get_dosing_schedule 0).2 t = 0 ∧
      chronicSeq m (m.get_dosing_schedule 0).1 (m.get_dosing_schedule 0).2 t = 0) ∧
    (∀ t, tumorSeq m (m.get_dosing_schedule 0).1 (m.get_dosing_schedule 0).2 (t + 1) =
      tumorSeq m (m.get_dosing_schedule 0).1 (m.get_dosing_schedule 0).2 t +
        m.dt * (m.params.tumor.growth_rate *
          tumorSeq m (m.get_dosing_schedule 0).1 (m.get_dosing_schedule 0).2 t)) := by
  refine ⟨fun i => ⟨rfl, rfl⟩, fun t => (zeroRun m h1 h2 h3 t).1, fun t => ?_, fun t => ?_⟩
  · constructor
    · cases t with
      | zero => rfl
      | succ s =>
        rw [acuteSeq_succ]
        norm_num
        exact le_of_eq rfl
    · exact (zeroRun m h1 h2 h3 t).2.2.1
  · have hk : killRateSeq m (fun _ => 0) (fun _ => 0) t = 0 := by
      rw [killRateSeq_eq]
      have he : effAucSeq m (fun _ => 0) (fun _ => 0) t = 0 :=
        (zeroRun m h1 h2 h3 (t + 1)).2.2.2.1
      rw [he]
      norm_num
    have ht : 0 ≤ tumorSeq m (fun _ => 0) (fun _ => 0) t :=
      (zeroRun m h1 h2 h3 t).2.2.2.2
    show tumorSeq m (fun _ => 0) (fun _ => 0) (t + 1) =
      tumorSeq m (fun _ => 0) (fun _ => 0) t +
        m.dt * (m.params.tumor.growth_rate * tumorSeq m (fun _ => 0) (fun _ => 0) t)
    rw [tumorSeq_succ, hk]
    have hz : tumorSeq m (fun _ => 0) (fun _ => 0) t +
        (m.params.tumor.growth_rate * tumorSeq m (fun _ => 0) (fun _ => 0) t -
          0 * tumorSeq m (fun _ => 0) (fun _ => 0) t) * m.dt =
        tumorSeq m (fun _ => 0) (fun _ => 0) t +
          m.dt * (m.params.tumor.growth_rate *
            tumorSeq m (fun _ => 0) (fun _ => 0) t) := by ring
    rw [hz]
    refine max_eq_right ?_
    have hg : 0 ≤ m.dt * (m.params.tumor.growth_rate *
        tumorSeq m (fun _ => 0) (fun _ => 0) t) :=
      mul_nonneg h5 (mul_nonneg h4 ht)
    linarith

/-- Witness for claim C7 at the concrete testModel. -/
theorem zero_cycles_trace_witness :
    ((0:ℚ) ≤ testModel.params.hematology.anc_baseline ∧
      (0:ℚ) < testModel.chronic_neuro_thresh_mg ∧
      (0:ℚ) ≤ testModel.params.tumor.initial_size ∧
      (0:ℚ) ≤ testModel.params.tumor.growth_rate ∧
      (0:ℚ) ≤ testModel.dt) ∧
      ((∀ i, (testModel.get_dosing_schedule 0).1 i = 0 ∧
          (testModel.get_dosing_schedule 0).2 i = 0) ∧
        (∀ t, ancSeq testModel (testModel.get_dosing_schedule 0).1
            (testModel.get_dosing_schedule 0).2 t =
          testModel.params.hematology.anc_baseline) ∧
        (∀ t, acuteSeq testModel (testModel.get_dosing_schedule 0).1
              (testModel.get_dosing_schedule 0).2 t = 0 ∧
          chronicSeq testModel (testModel.get_dosing_schedule 0).1
            (testModel.get_dosing_schedule 0).2 t = 0) ∧
        (∀ t, tumorSeq testModel (testModel.get_dosing_schedule 0).1
            (testModel.get_dosing_schedule 0).2 (t + 1) =
          tumorSeq testModel (testModel.get_dosing_schedule 0).1
              (testModel.get_dosing_schedule 0).2 t +
            testModel.dt * (testModel.params.tumor.growth_rate *
              tumorSeq testModel (testModel.get_dosing_schedule 0).1
                (testModel.get_dosing_schedule 0).2 t))) :=
  ⟨⟨by norm_num [show testModel.params.hematology.anc_baseline = 1 from rfl],
    by norm_num [show testModel.chronic_neuro_thresh_mg = 850 from rfl],
    by norm_num [show testModel.params.tumor.initial_size = 100 from rfl],
    by norm_num [show testModel.params.tumor.growth_rate = 1 / 100 from rfl],
    by norm_num [show testModel.dt = 1 from rfl]⟩,
    zero_cycles_trace testModel
      (by norm_num [show testModel.params.hematology.anc_baseline = 1 from rfl])
      (by norm_num [show testModel.chronic_neuro_thresh_mg = 850 from rfl])
      (by norm_num [show testModel.params.tumor.initial_size = 100 from rfl])
      (by norm_num [show testModel.params.tumor.growth_rate = 1 / 100 from rfl])
      (by norm_num [show testModel.dt = 1 from rfl])⟩

/-- Claim C6: parameter derivation fails with InvalidPatientError
exactly when weight ≤ 0 or height ≤ 0; otherwise it produces the model
whose BSA is sqrt(height·weight/3600) (characterised as the
nonnegative root) and whose absolute limits and chronic threshold are
the per-m² config values times the BSA. -/
theorem param_derivation_spec (p : FOLFOXParams) (b : ℚ)
    (hb : IsSqrt (p.dosing.patient_height_cm * p.dosing.patient_weight_kg / 3600) b) :
    (FOLFOXModel.ofParams p b = Except.error InvalidPatientError.mk ↔
      p.dosing.patient_weight_kg ≤ 0 ∨ p.dosing.patient_height_cm ≤ 0) ∧
    ∀ M, FOLFOXModel.ofParams p b = Except.ok M →
      (0 ≤ M.bsa_m2 ∧
        M.bsa_m2 ^ 2 = p.dosing.patient_height_cm * p.dosing.patient_weight_kg / 3600) ∧
      M.max_daily_5fu_mg = p.dosing.max_daily_5fu_mg_m2 * M.bsa_m2 ∧
      M.max_single_ox_mg = p.dosing.max_single_ox_mg_m2 * M.bsa_m2 ∧
      M.chronic_neuro_thresh_mg =
        p.neuropathy.chronic_neuropathy_threshold_mg_m2 * M.bsa_m2 ∧
      M.severe_neutropenia_thresh = p.hematology.severe_neutropenia_threshold := by
  unfold FOLFOXModel.ofParams
  split_ifs with h
  · exact ⟨⟨fun _ => h, fun _ => rfl⟩, fun M hM => hM.elim⟩
  · refine ⟨⟨fun he => he.elim, fun hh => absurd hh h⟩, ?_⟩
    intro M hM
    rw [Except.ok.injEq] at hM
    subst hM
    exact ⟨⟨hb.1, hb.2⟩, rfl, rfl, rfl, rfl⟩

/-- Witness for claim C6 at the concrete cexParams (BSA exactly 1). -/
theorem param_derivation_spec_witness :
    IsSqrt (cexParams.dosing.patient_height_cm * cexParams.dosing.patient_weight_kg /
        3600) 1 ∧
      ((FOLFOXModel.ofParams cexParams 1 = Except.error InvalidPatientError.mk ↔
        cexParams.dosing.patient_weight_kg ≤ 0 ∨
          cexParams.dosing.patient_height_cm ≤ 0) ∧
      ∀ M, FOLFOXModel.ofParams cexParams 1 = Except.ok M →
        (0 ≤ M.bsa_m2 ∧
          M.bsa_m2 ^ 2 =
            cexParams.dosing.patient_height_cm * cexParams.dosing.patient_weight_kg /
              3600) ∧
        M.max_daily_5fu_mg = cexParams.dosing.max_daily_5fu_mg_m2 * M.bsa_m2 ∧
        M.max_single_ox_mg = cexParams.dosing.max_single_ox_mg_m2 * M.bsa_m2 ∧
        M.chronic_neuro_thresh_mg =
          cexParams.neuropathy.chronic_neuropathy_threshold_mg_m2 * M.bsa_m2 ∧
        M.severe_neutropenia_thresh =
          cexParams.hematology.severe_neutropenia_threshold) :=
  ⟨by
    constructor
    · norm_num
    · norm_num [show cexParams.dosing.patient_height_cm = 100 from rfl,
        show cexParams.dosing.patient_weight_kg = 36 from rfl],
    param_derivation_spec cexParams 1
      (by
        constructor
        · norm_num
        · norm_num [show cexParams.dosing.patient_height_cm = 100 from rfl,
            show cexParams.dosing.patient_weight_kg = 36 from rfl])⟩

theorem optimiseLoop_cons (run : ℕ → Except Unit SimResults)
    (sc : SimResults → ℚ) (n : ℕ) (rest : List ℕ)
    (best : Option (ℕ × ℚ × SimResults)) :
    optimiseLoop run sc (n :: rest) best =
      optimiseLoop run sc rest
        (match run n with
         | Except.error _ => best
         | Except.ok res =>
           if improves best (sc res) then some (n, sc res, res) else best) := rfl

theorem optimiseLoop_append (run : ℕ → Except Unit SimResults)
    (sc : SimResults → ℚ) :
    ∀ (l1 l2 : List ℕ) (b : Option (ℕ × ℚ × SimResults)),
      optimiseLoop run sc (l1 ++ l2) b =
        optimiseLoop run sc l2 (optimiseLoop run sc l1 b) := by
  intro l1
  induction l1 with
  | nil => intro l2 b; rfl
  | cons n l ih =>
    intro l2 b
    rw [List.cons_append, optimiseLoop_cons, optimiseLoop_cons, ih]

theorem optimiseLoop_some_ne_none (run : ℕ → Except Unit SimResults)
    (sc : SimResults → ℚ) :
    ∀ (l : List ℕ) (x : ℕ × ℚ × SimResults),
      optimiseLoop run sc l (some x) ≠ none := by
  intro l
  induction l with
  | nil => intro x h; exact Option.noConfusion h
  | cons n rest ih =>
    intro x
    rw [optimiseLoop_cons]
    cases hr : run n with
    | error e => exact ih x
    | ok res =>
      show optimiseLoop run sc rest
        (if improves (some x) (sc res) then some (n, sc res, res) else some x) ≠ none
      split
      · exact ih _
      · exact ih x

theorem optimiseLoop_none_iff (run : ℕ → Except Unit SimResults)
    (sc : SimResults → ℚ) :
    ∀ l : List ℕ,
      (optimiseLoop run sc l none = none ↔ ∀ n ∈ l, run n = Except.error ()) := by
  intro l
  induction l with
  | nil => simp [optimiseLoop]
  | cons n rest ih =>
    rw [optimiseLoop_cons]
    cases hr : run n with
    | error e =>
      cases e
      constructor
      · intro h k hk
        rcases List.mem_cons.mp hk with rfl | hk'
        · exact hr
        · exact ih.mp h k hk'
      · intro h
        exact ih.mpr fun k hk => h k (List.mem_cons_of_mem n hk)
    | ok res =>
      show optimiseLoop run sc rest
          (if improves none (sc res) then some (n, sc res, res) else none) = none ↔ _
      rw [show improves none (sc res) = true from rfl, if_pos rfl]
      constructor
      · intro h
        exact absurd h (optimiseLoop_some_ne_none run sc rest _)
      · intro h
        have hn := h n (List.mem_cons_self n rest)
        rw [hr] at hn
        exact Except.noConfusion hn

/-- Claim C5: a candidate whose simulation raises is skipped and the
search continues over the remaining candidates (first conjunct), and
the optimiser signals NoFeasibleScheduleError exactly when every
candidate in the range fails (second conjunct). -/
theorem optimiser_error_handling :
    (∀ (run : ℕ → Except Unit SimResults) (sc : SimResults → ℚ) (n : ℕ)
        (rest : List ℕ) (best : Option (ℕ × ℚ × SimResults)),
        run n = Except.error () →
        optimiseLoop run sc (n :: rest) best = optimiseLoop run sc rest best) ∧
    (∀ (run : ℕ → Except Unit SimResults) (p : FOLFOXParams),
        findOptimalCycles run p = Except.error NoFeasibleScheduleError.mk ↔
          ∀ n < numCandidates p, run n = Except.error ()) := by
  constructor
  · intro run sc n rest best h
    rw [optimiseLoop_cons, h]
  · intro run p
    unfold findOptimalCycles
    cases hl : optimiseLoop run (meanUtility p) (List.range (numCandidates p)) none with
    | none =>
      constructor
      · intro _ n hn
        exact (optimiseLoop_none_iff run (meanUtility p) _).mp hl n
          (List.mem_range.mpr hn)
      · intro _
        rfl
    | some b =>
      constructor
      · intro h
        exact Except.noConfusion h
      · intro h
        have hnone : optimiseLoop run (meanUtility p)
            (List.range (numCandidates p)) none = none :=
          (optimiseLoop_none_iff run (meanUtility p) _).mpr
            fun n hn => h n (List.mem_range.mp hn)
        rw [hl] at hnone
        exact Option.noConfusion hnone

theorem runCandidate_eq (m : FOLFOXModel) (k : ℕ) :
    runCandidate m k = Except.ok (m.simulate k) := rfl

theorem optimiseLoop_singleton_ok (run : ℕ → Except Unit SimResults)
    (sc : SimResults → ℚ) (k : ℕ) (best : Option (ℕ × ℚ × SimResults))
    (res : SimResults) (h : run k = Except.ok res) :
    optimiseLoop run sc [k] best =
      if improves best (sc res) then some (k, sc res, res) else best := by
  rw [optimiseLoop_cons, h]
  rfl

/-- The candidate loop over range k with a pure runner returns the
first-seen maximiser of the score. -/
theorem loopPure_spec (m : FOLFOXModel) :
    ∀ k, 0 < k →
      ∃ b, optimiseLoop (runCandidate m) (meanUtility m.params)
          (List.range k) none = some (b, score m b, m.simulate b) ∧
        b < k ∧ (∀ n, n < k → score m n ≤ score m b) ∧
        (∀ n, n < k → score m n = score m b → b ≤ n) := by
  intro k
  induction k with
  | zero => intro h; exact absurd h (lt_irrefl 0)
  | succ k ih =>
    intro _
    cases Nat.eq_zero_or_pos k with
    | inl hk0 =>
      subst hk0
      refine ⟨0, ?_, Nat.zero_lt_one, ?_, ?_⟩
      · show optimiseLoop (runCandidate m) (meanUtility m.params) [0] none = _
        rw [optimiseLoop_singleton_ok _ _ _ _ _ (runCandidate_eq m 0),
          show improves none (meanUtility m.params (m.simulate 0)) = true from rfl,
          if_pos rfl]
        rfl
      · intro n hn
        interval_cases n
        exact le_refl _
      · intro n hn _
        exact Nat.zero_le n
    | inr hk =>
      obtain ⟨b, hb, hlt, hmax, hfirst⟩ := ih hk
      rw [List.range_succ, optimiseLoop_append, hb,
        optimiseLoop_singleton_ok _ _ _ _ _ (runCandidate_eq m k)]
      by_cases hcmp : score m b < score m k
      · rw [show improves (some (b, score m b, m.simulate b))
            (meanUtility m.params (m.simulate k)) = true from decide_eq_true hcmp,
          if_pos rfl]
        refine ⟨k, rfl, Nat.lt_succ_self k, ?_, ?_⟩
        · intro n hn
          rcases Nat.lt_succ_iff_lt_or_eq.mp hn with hn' | rfl
          · exact le_trans (hmax n hn') (le_of_lt hcmp)
          · exact le_refl _
        · intro n hn heq
          rcases Nat.lt_succ_iff_lt_or_eq.mp hn with hn' | rfl
          · exact absurd heq (ne_of_lt (lt_of_le_of_lt (hmax n hn') hcmp))
          · exact le_refl _
      · rw [show improves (some (b, score m b, m.simulate b))
            (meanUtility m.params (m.simulate k)) = false from decide_eq_false hcmp,
          if_neg Bool.false_ne_true]
        refine ⟨b, rfl, Nat.lt_succ_of_lt hlt, ?_, ?_⟩
        · intro n hn
          rcases Nat.lt_succ_iff_lt_or_eq.mp hn with hn' | rfl
          · exact hmax n hn'
          · exact le_of_not_lt hcmp
        · intro n hn heq
          rcases Nat.lt_succ_iff_lt_or_eq.mp hn with hn' | rfl
          · exact hfirst n hn' heq
          · exact le_of_lt hlt

/-- The average utility main computes is the mean of the utility
entries at steps 1..T when T ≥ 1. -/
theorem score_eq_mean (m : FOLFOXModel) (n : ℕ) (hT : 0 < m.T) :
    score m n = (∑ t ∈ Finset.range m.T,
        utilitySeq m (m.get_dosing_schedule n).1 (m.get_dosing_schedule n).2 (t + 1)) /
      (m.T : ℚ) := by
  unfold score meanUtility
  rw [show (m.simulate n).utility = List.ofFn fun t : Fin (m.T + 1) =>
      utilitySeq m (m.get_dosing_schedule n).1 (m.get_dosing_schedule n).2 t from rfl]
  rw [List.length_ofFn, if_pos (by omega : 1 < m.T + 1), List.ofFn_succ]
  rw [List.drop_one, List.tail_cons, List.sum_ofFn, List.length_ofFn]
  simp only [Fin.val_succ]
  rw [Fin.sum_univ_eq_sum_range fun i =>
    utilitySeq m (m.get_dosing_schedule n).1 (m.get_dosing_schedule n).2 (i + 1)]

/-- Claim C2: for a nonnegative horizon the optimiser evaluates every
candidate N in 0..floor(horizon_days/14) inclusive, scores each by the
mean utility over steps 1..T, and returns the first-seen candidate of
strictly greatest mean utility together with its score and trace: the
winner's score is maximal over the whole range, and any candidate of
equal score has an index no smaller than the winner's. -/
theorem optimiser_first_seen_argmax (m : FOLFOXModel)
    (hh : 0 ≤ m.params.optimization.horizon_days) :
    ∃ b, findOptimalCycles (runCandidate m) m.params =
        Except.ok (b, score m b, m.simulate b) ∧
      b ≤ (Int.fdiv m.params.optimization.horizon_days 14).toNat ∧
      (∀ n ≤ (Int.fdiv m.params.optimization.horizon_days 14).toNat,
        score m n ≤ score m b) ∧
      (∀ n ≤ (Int.fdiv m.params.optimization.horizon_days 14).toNat,
        score m n = score m b → b ≤ n) ∧
      (0 < m.T → ∀ n, score m n = (∑ t ∈ Finset.range m.T,
        utilitySeq m (m.get_dosing_schedule n).1 (m.get_dosing_schedule n).2 (t + 1)) /
        (m.T : ℚ)) := by
  have h14 : (0:ℤ) ≤ Int.fdiv m.params.optimization.horizon_days 14 :=
    Int.fdiv_nonneg hh (by norm_num)
  have hnum : numCandidates m.params =
      (Int.fdiv m.params.optimization.horizon_days 14).toNat + 1 := by
    unfold numCandidates
    omega
  obtain ⟨b, hb, hlt, hmax, hfirst⟩ :=
    loopPure_spec m (numCandidates m.params) (by omega)
  refine ⟨b, ?_, by omega, ?_, ?_, fun hT n => score_eq_mean m n hT⟩
  · unfold findOptimalCycles
    rw [hb]
  · intro n hn
    exact hmax n (by omega)
  · intro n hn heq
    exact hfirst n (by omega) heq

/-- Witness for claim C2 at the concrete testModel (horizon 28 days,
so candidates 0, 1, 2 are evaluated). -/
theorem optimiser_first_seen_argmax_witness :
    (0:ℤ) ≤ testModel.params.optimization.horizon_days ∧
      ∃ b, findOptimalCycles (runCandidate testModel) testModel.params =
          Except.ok (b, score testModel b, testModel.simulate b) ∧
        b ≤ (Int.fdiv testModel.params.optimization.horizon_days 14).toNat ∧
        (∀ n ≤ (Int.fdiv testModel.params.optimization.horizon_days 14).toNat,
          score testModel n ≤ score testModel b) ∧
        (∀ n ≤ (Int.fdiv testModel.params.optimization.horizon_days 14).toNat,
          score testModel n = score testModel b → b ≤ n) ∧
        (0 < testModel.T → ∀ n, score testModel n = (∑ t ∈ Finset.range testModel.T,
          utilitySeq testModel (testModel.get_dosing_schedule n).1
            (testModel.get_dosing_schedule n).2 (t + 1)) / (testModel.T : ℚ)) :=
  ⟨by norm_num [show testModel.params.optimization.horizon_days = 28 from rfl],
    optimiser_first_seen_argmax testModel
      (by norm_num [show testModel.params.optimization.horizon_days = 28 from rfl])⟩

end Folfox
